import Mathlib

/-
  Shallow embedding of the salesresolvebackend server
  (src/config/supabase.js and src/services/emailService.js).

  The JavaScript runtime is modelled as follows: JSON values delivered by
  the body parser become the inductive type `JVal`; a field missing from a
  request body is `Option.none`; JavaScript truthiness becomes the boolean
  `truthy`; environment variables are `Option String` (unset = none) with
  the truthiness test `truthyEnv` (unset or empty string is falsy).
  External effects (the Supabase client, the Resend provider) are modelled
  by outcome parameters: each handler takes the outcome the external call
  would have produced, and the theorems quantify over all outcomes.
-/

namespace SalesResolve

/-- JSON values as produced by the express body parser. Numbers are kept
as integers: truthiness only distinguishes zero from nonzero. -/
inductive JVal where
  | jnull
  | jbool (b : Bool)
  | jnum (n : Int)
  | jstr (s : String)
  | jarr (n : Nat)
  | jobj (n : Nat)
deriving DecidableEq, Repr

/-- JavaScript truthiness of a JSON value: null, false, 0 and the empty
string are falsy; arrays and objects are always truthy (their contents are
irrelevant to truthiness, so they carry only an opaque tag here). -/
def JVal.truthy : JVal → Bool
  | .jnull => false
  | .jbool b => b
  | .jnum n => n != 0
  | .jstr s => s != ""
  | .jarr _ => true
  | .jobj _ => true

/-- Truthiness of a destructured body field: a missing field destructures
to undefined, which is falsy. -/
def truthyOpt : Option JVal → Bool
  | none => false
  | some v => v.truthy

/-- Truthiness of an environment variable: unset or empty is falsy. -/
def truthyEnv : Option String → Bool
  | none => false
  | some s => s != ""

/-- Result of loading src/config/supabase.js: either the process exits or
both clients are constructed. -/
inductive ConfigResult where
  | exitProcess (code : Nat)
  | clientPair (url serviceKey : String) (anonKey : Option String)
deriving DecidableEq, Repr

/-- src/config/supabase.js lines 9-28: read SUPABASE_URL,
SUPABASE_SERVICE_ROLE_KEY and SUPABASE_ANON_KEY; if either required value
is falsy, log a diagnostic and call process.exit(1); otherwise create the
service-role client and the anon client. -/
def loadSupabaseConfig (supabaseUrl supabaseServiceKey supabaseAnonKey : Option String) :
    ConfigResult :=
  if !(truthyEnv supabaseUrl) || !(truthyEnv supabaseServiceKey) then
    .exitProcess 1
  else
    .clientPair (supabaseUrl.getD "") (supabaseServiceKey.getD "") supabaseAnonKey

/-- The process environment slice the message handlers consult per call:
process.env.SUPABASE_URL and process.env.SUPABASE_SERVICE_ROLE_KEY. -/
structure Env where
  supabaseUrl : Option String
  supabaseServiceKey : Option String
deriving DecidableEq, Repr

/-- The guard `process.env.SUPABASE_URL && process.env.SUPABASE_SERVICE_ROLE_KEY`
used by both message handlers (lines 511 and 558). -/
def envConfigured (env : Env) : Bool :=
  truthyEnv env.supabaseUrl && truthyEnv env.supabaseServiceKey

/-- A message record as stored in messagesStorage or returned by the API.
The name, email and message fields hold whatever JSON values the client
sent. -/
structure MessageRecord where
  id : String
  name : JVal
  email : JVal
  message : JVal
  status : String
  created_at : String
deriving DecidableEq, Repr

/-- The two fixture records messagesStorage is seeded with at startup
(lines 400-417); t1 and t2 are the startup timestamps. -/
def seededStorage (t1 t2 : String) : List MessageRecord :=
  [ { id := "1", name := .jstr "Test User 1", email := .jstr "test1@example.com",
      message := .jstr "Test message 1", status := "new", created_at := t1 },
    { id := "2", name := .jstr "Test User 2", email := .jstr "test2@example.com",
      message := .jstr "Test message 2", status := "new", created_at := t2 } ]

/-- A POST /api/messages request body after destructuring
`const { name, email, message } = req.body`; a field absent from the body
is none. -/
structure PostRequestBody where
  name : Option JVal
  email : Option JVal
  message : Option JVal
deriving DecidableEq, Repr

/-- Outcome of the Supabase insert (lines 560-569): the call returned a
non-null error or a null row, the awaited promise rejected, or it
succeeded returning the inserted row, whose id and created_at the
database chose. -/
inductive DbInsertOutcome where
  | insErrorOrNull
  | insRaised
  | insSaved (dbId dbCreatedAt : String)
deriving DecidableEq, Repr

/-- Outcome of the Supabase select (lines 512-515). -/
inductive DbSelectOutcome where
  | selErrorOrNull
  | selRaised
  | selRows (rows : List MessageRecord)
deriving DecidableEq, Repr

/-- The JSON body of a POST /api/messages response: HTTP status plus the
fields the handler writes. -/
structure PostResponse where
  status : Nat
  error : Option String
  code : Option String
  message : Option String
  data : Option MessageRecord
deriving DecidableEq, Repr

/-- Everything observable about one POST /api/messages call: the HTTP
response, the in-memory store afterwards, whether a database insert was
attempted, and whether the notification dispatcher was invoked. -/
structure PostOutcome where
  response : PostResponse
  storage : List MessageRecord
  dbInsertAttempted : Bool
  notificationInvoked : Bool
deriving DecidableEq, Repr

/-- src/config/supabase.js lines 537-600, POST /api/messages.
Validation first: if any of name, email, message is falsy (missing or a
falsy value) respond 400 VALIDATION_ERROR and stop. Otherwise build
newMessage with id Date.now().toString() (nowMs) and created_at
new Date().toISOString() (nowIso). If both environment settings are
truthy, attempt the insert: on a saved row, invoke the email dispatcher
(whose result emailOk is discarded: sendEmail never rejects, see
`sendEmail` below) and respond 201 with the database row; on an error,
null row, or rejection, fall through. Every fall-through path pushes
newMessage onto the store and responds 201 with it. -/
def postMessages (env : Env) (storage : List MessageRecord) (body : PostRequestBody)
    (nowMs nowIso : String) (db : DbInsertOutcome) (emailOk : Bool) : PostOutcome :=
  if !(truthyOpt body.name) || !(truthyOpt body.email) || !(truthyOpt body.message) then
    { response := { status := 400, error := some "Missing required fields",
                    code := some "VALIDATION_ERROR", message := none, data := none },
      storage := storage, dbInsertAttempted := false, notificationInvoked := false }
  else
    let name := body.name.getD .jnull
    let email := body.email.getD .jnull
    let msg := body.message.getD .jnull
    let newMessage : MessageRecord :=
      { id := nowMs, name := name, email := email, message := msg,
        status := "new", created_at := nowIso }
    if envConfigured env then
      match db with
      | .insSaved dbId dbCreatedAt =>
        let savedMessage : MessageRecord :=
          { id := dbId, name := name, email := email, message := msg,
            status := "new", created_at := dbCreatedAt }
        { response := { status := 201, error := none, code := none,
                        message := some "Message sent successfully",
                        data := some savedMessage },
          storage := storage, dbInsertAttempted := true,
          notificationInvoked := true }
      | _ =>
        { response := { status := 201, error := none, code := none,
                        message := some "Message sent successfully (stored in memory)",
                        data := some newMessage },
          storage := storage ++ [newMessage], dbInsertAttempted := true,
          notificationInvoked := false }
    else
      { response := { status := 201, error := none, code := none,
                      message := some "Message sent successfully (stored in memory)",
                      data := some newMessage },
        storage := storage ++ [newMessage], dbInsertAttempted := false,
        notificationInvoked := false }

/-- The JSON body of a GET /api/messages response. -/
structure GetOutcome where
  status : Nat
  messages : List MessageRecord
  message : String
deriving DecidableEq, Repr

/-- src/config/supabase.js lines 508-535, GET /api/messages: if both
environment settings are truthy, try the select; a non-null error, null
data or rejection falls through to the in-memory list, returned in its
insertion order. -/
def getMessages (env : Env) (storage : List MessageRecord) (db : DbSelectOutcome) :
    GetOutcome :=
  if envConfigured env then
    match db with
    | .selRows rows =>
      { status := 200, messages := rows,
        message := "Messages fetched from Supabase successfully" }
    | _ =>
      { status := 200, messages := storage,
        message := "Messages fetched from memory successfully" }
  else
    { status := 200, messages := storage,
      message := "Messages fetched from memory successfully" }

/-- The hard-coded credential table of POST /api/auth/login
(lines 607-611), as lookup: email to (role, password). -/
def loginUsers (email : String) : Option (String × String) :=
  if email = "romanetflavia@gmail.com" then some ("admin", "admin123")
  else if email = "alex@salesresolve.com" then some ("team", "team123")
  else if email = "adrian@salesresolve.com" then some ("team", "team123")
  else none

/-- The JSON body of a POST /api/auth/login response. -/
structure LoginResponse where
  status : Nat
  success : Bool
  userEmail : Option String
  userRole : Option String
  userName : Option String
  token : Option String
  error : Option String
  code : Option String
deriving DecidableEq, Repr

/-- src/config/supabase.js lines 603-629, POST /api/auth/login: if
`users[email]` exists and its password strictly equals the submitted one,
respond with the user (name is the part of the email before the first
at-sign, per email.split at-sign index 0) and the constant token
mock-jwt-token; otherwise respond 401 AUTH_ERROR. -/
def login (email password : String) : LoginResponse :=
  match loginUsers email with
  | some entry =>
    if entry.2 = password then
      { status := 200, success := true, userEmail := some email,
        userRole := some entry.1, userName := some ((email.splitOn "@").headD email),
        token := some "mock-jwt-token", error := none, code := none }
    else
      { status := 401, success := false, userEmail := none, userRole := none,
        userName := none, token := none, error := some "Invalid credentials",
        code := some "AUTH_ERROR" }
  | none =>
    { status := 401, success := false, userEmail := none, userRole := none,
      userName := none, token := none, error := some "Invalid credentials",
      code := some "AUTH_ERROR" }

/-- src/config/supabase.js lines 652-665, the join-room socket handler:
returns the name of the room the session is joined to. A client role is
joined to the room whose name is the template literal of the string
client- followed by the userId; every other role is joined to the
caller-supplied roomId, with no further check. -/
def joinRoom (roomId userId userRole : String) : String :=
  if userRole = "client" then "client-" ++ userId else roomId

/-- src/config/supabase.js lines 667-678, the new-message socket handler:
the broadcast message-received payload is the spread of the client
message object with the timestamp key then set to the server time. A JS
object is modelled by its lookup function from key to value. -/
def broadcastPayload (message : String → Option JVal) (nowIso : String) :
    String → Option JVal :=
  fun k => if k = "timestamp" then some (.jstr nowIso) else message k

/-- The value sendEmail resolves with: an object with success plus either
an error message or the provider result. -/
structure EmailSendResult where
  success : Bool
  errorMsg : Option String
  dataId : Option String
deriving DecidableEq, Repr

/-- A row the logEmail helper inserts into email_notifications
(src/services/emailService.js lines 190-208). -/
structure EmailLogRecord where
  to_email : String
  subject : String
  body : String
  status : String
  sent_at : Option String
deriving DecidableEq, Repr

/-- Outcome of the Resend provider call resend.emails.send: it resolved
with a result id, or it rejected with a message. -/
inductive ProviderOutcome where
  | sent (resultId : String)
  | raised (msg : String)
deriving DecidableEq, Repr

/-- Everything observable about one sendEmail call: the resolved value,
how many provider network calls were made, and which log rows were
submitted to the database. -/
structure SendEmailTrace where
  result : EmailSendResult
  networkCalls : Nat
  logAttempts : List EmailLogRecord
deriving DecidableEq, Repr

/-- The row logEmail submits (lines 190-208): sent_at is the current time
for a sent status and null otherwise. Its own database failure is caught
and only logged, so the call always returns. -/
def logEmail (toAddr subject body status nowIso : String) : EmailLogRecord :=
  { to_email := toAddr, subject := subject, body := body, status := status,
    sent_at := if status = "sent" then some nowIso else none }

/-- src/services/emailService.js lines 22-53, EmailService.sendEmail.
The module-level `resend` handle is non-null exactly when RESEND_API_KEY
was truthy (line 11), so the guard `!resend || !process.env.RESEND_API_KEY`
collapses to the key being falsy: then the call returns the
not-configured failure before any provider call or log write. Otherwise
one provider call is made; on resolution a sent row is logged and success
returned, on rejection the catch logs a failed row and returns the error.
Every path returns a value: sendEmail never rejects. -/
def sendEmail (resendApiKey : Option String) (toAddr subject html : String)
    (provider : ProviderOutcome) (nowIso : String) : SendEmailTrace :=
  if !(truthyEnv resendApiKey) then
    { result := { success := false, errorMsg := some "Email service not configured",
                  dataId := none },
      networkCalls := 0, logAttempts := [] }
  else
    match provider with
    | .sent rid =>
      { result := { success := true, errorMsg := none, dataId := some rid },
        networkCalls := 1, logAttempts := [logEmail toAddr subject html "sent" nowIso] }
    | .raised m =>
      { result := { success := false, errorMsg := some m, dataId := none },
        networkCalls := 1, logAttempts := [logEmail toAddr subject html "failed" nowIso] }

/-- One valid POST /api/messages request in a sequence: the three truthy
body fields together with the per-request clock readings. -/
structure ValidPostInput where
  name : JVal
  email : JVal
  message : JVal
  nowMs : String
  nowIso : String
deriving DecidableEq, Repr

/-- All three fields of the input are truthy. -/
def validInput (p : ValidPostInput) : Bool :=
  p.name.truthy && p.email.truthy && p.message.truthy

/-- The record the fallback path builds and appends for this input. -/
def recordOfInput (p : ValidPostInput) : MessageRecord :=
  { id := p.nowMs, name := p.name, email := p.email, message := p.message,
    status := "new", created_at := p.nowIso }

/-- Run a sequence of POST /api/messages requests against the store,
threading the storage state through; db and emailOk are the (per-run
constant) external outcomes. -/
def runPosts (env : Env) (db : DbInsertOutcome) (emailOk : Bool)
    (s : List MessageRecord) : List ValidPostInput → List MessageRecord
  | [] => s
  | p :: rest =>
    runPosts env db emailOk
      (postMessages env s ⟨some p.name, some p.email, some p.message⟩
        p.nowMs p.nowIso db emailOk).storage rest

/-- Every request or socket event the codebase handles, with the external
outcomes it consumes. The broadcast message of a new-message event is a
lookup function, modelling the spread object. -/
inductive ServerOp where
  | healthCheck
  | apiHealth
  | rootInfo
  | getMsgs (env : Env) (db : DbSelectOutcome)
  | postMsgs (env : Env) (body : PostRequestBody) (nowMs nowIso : String)
      (db : DbInsertOutcome) (emailOk : Bool)
  | authLogin (email password : String)
  | getProjects
  | getClients
  | joinRoomEvent (roomId userId userRole : String)
  | newMessageEvent (roomId : String) (message : String → Option JVal) (nowIso : String)
  | disconnectEvent

/-- The in-memory messagesStorage after an operation: the POST handler is
the only operation of the codebase that touches it; every other handler
leaves it untouched. -/
def storageAfter : ServerOp → List MessageRecord → List MessageRecord
  | .postMsgs env body nowMs nowIso db emailOk, s =>
    (postMessages env s body nowMs nowIso db emailOk).storage
  | _, s => s

/-! Theorems -/

/-- Claim C1, counterexample: with both required database settings absent
from the environment, the config loader does not return a stub client (or
any client): it reaches process.exit(1), modelled as `exitProcess 1`, so
it terminates the process instead of degrading silently. -/
theorem config_missing_no_stub_cex :
    loadSupabaseConfig none none none = ConfigResult.exitProcess 1 := by
  rfl

/-- Claim C1 as amended: when either required database setting
(SUPABASE_URL or SUPABASE_SERVICE_ROLE_KEY) is absent or empty, the
config loader logs a diagnostic and terminates the process with exit
code 1; it never constructs a client, stub or otherwise. -/
theorem config_missing_exits (url key anon : Option String)
    (h : truthyEnv url = false ∨ truthyEnv key = false) :
    loadSupabaseConfig url key anon = ConfigResult.exitProcess 1 := by
  rcases h with h | h <;> simp [loadSupabaseConfig, h]

/-- Witness for `config_missing_exits` at a concrete input. -/
theorem config_missing_exits_witness :
    loadSupabaseConfig none (some "service-key") none = ConfigResult.exitProcess 1 :=
  config_missing_exits none (some "service-key") none (Or.inl rfl)

/-- Claim C2: a POST /api/messages body missing any of name, email,
message is rejected with 400 VALIDATION_ERROR, no database insert is
attempted, and the in-memory store is unchanged — for every environment
and every external outcome. -/
theorem post_missing_field_rejected (env : Env) (storage : List MessageRecord)
    (body : PostRequestBody) (nowMs nowIso : String) (db : DbInsertOutcome)
    (emailOk : Bool)
    (h : body.name = none ∨ body.email = none ∨ body.message = none) :
    (postMessages env storage body nowMs nowIso db emailOk).response.status = 400 ∧
    (postMessages env storage body nowMs nowIso db emailOk).response.code =
      some "VALIDATION_ERROR" ∧
    (postMessages env storage body nowMs nowIso db emailOk).storage = storage ∧
    (postMessages env storage body nowMs nowIso db emailOk).dbInsertAttempted = false := by
  rcases h with h | h | h <;> simp [postMessages, h, truthyOpt]

/-- Witness for `post_missing_field_rejected`: a body with no name. -/
theorem post_missing_field_rejected_witness :
    (postMessages ⟨some "u", some "k"⟩ [] ⟨none, some (.jstr "a@b.c"), some (.jstr "hi")⟩
        "100" "t0" (.insSaved "7" "t1") true).response.status = 400 ∧
    (postMessages ⟨some "u", some "k"⟩ [] ⟨none, some (.jstr "a@b.c"), some (.jstr "hi")⟩
        "100" "t0" (.insSaved "7" "t1") true).response.code = some "VALIDATION_ERROR" ∧
    (postMessages ⟨some "u", some "k"⟩ [] ⟨none, some (.jstr "a@b.c"), some (.jstr "hi")⟩
        "100" "t0" (.insSaved "7" "t1") true).storage = [] ∧
    (postMessages ⟨some "u", some "k"⟩ [] ⟨none, some (.jstr "a@b.c"), some (.jstr "hi")⟩
        "100" "t0" (.insSaved "7" "t1") true).dbInsertAttempted = false :=
  post_missing_field_rejected ⟨some "u", some "k"⟩ []
    ⟨none, some (.jstr "a@b.c"), some (.jstr "hi")⟩ "100" "t0"
    (.insSaved "7" "t1") true (Or.inl rfl)

/-- Claim C9: a POST /api/messages body field that is present but falsy
(the empty string, null, 0 or false) is treated exactly like a missing
field — 400 VALIDATION_ERROR, no insert attempt, store unchanged —
because the guard tests truthiness, not key existence. -/
theorem post_falsy_field_rejected (env : Env) (storage : List MessageRecord)
    (body : PostRequestBody) (nowMs nowIso : String) (db : DbInsertOutcome)
    (emailOk : Bool)
    (h : (body.name.isSome = true ∧ truthyOpt body.name = false) ∨
         (body.email.isSome = true ∧ truthyOpt body.email = false) ∨
         (body.message.isSome = true ∧ truthyOpt body.message = false)) :
    (postMessages env storage body nowMs nowIso db emailOk).response.status = 400 ∧
    (postMessages env storage body nowMs nowIso db emailOk).response.code =
      some "VALIDATION_ERROR" ∧
    (postMessages env storage body nowMs nowIso db emailOk).storage = storage ∧
    (postMessages env storage body nowMs nowIso db emailOk).dbInsertAttempted = false := by
  rcases h with ⟨-, h⟩ | ⟨-, h⟩ | ⟨-, h⟩ <;> simp [postMessages, h]

/-- Witness for `post_falsy_field_rejected`: a body whose name is the
empty string. -/
theorem post_falsy_field_rejected_witness :
    (postMessages ⟨none, none⟩ [] ⟨some (.jstr ""), some (.jstr "a@b.c"), some (.jstr "hi")⟩
        "100" "t0" .insErrorOrNull true).response.status = 400 ∧
    (postMessages ⟨none, none⟩ [] ⟨some (.jstr ""), some (.jstr "a@b.c"), some (.jstr "hi")⟩
        "100" "t0" .insErrorOrNull true).response.code = some "VALIDATION_ERROR" ∧
    (postMessages ⟨none, none⟩ [] ⟨some (.jstr ""), some (.jstr "a@b.c"), some (.jstr "hi")⟩
        "100" "t0" .insErrorOrNull true).storage = [] ∧
    (postMessages ⟨none, none⟩ [] ⟨some (.jstr ""), some (.jstr "a@b.c"), some (.jstr "hi")⟩
        "100" "t0" .insErrorOrNull true).dbInsertAttempted = false :=
  post_falsy_field_rejected ⟨none, none⟩ []
    ⟨some (.jstr ""), some (.jstr "a@b.c"), some (.jstr "hi")⟩ "100" "t0"
    .insErrorOrNull true (Or.inl ⟨rfl, rfl⟩)

/-- Claim C3: for every valid body (all three fields present and truthy),
POST /api/messages responds 201 with a record whose name, email and
message equal the input — for every environment, every insert outcome
(success, error or unconfigured) and every notification outcome. -/
theorem post_valid_echoes_input (env : Env) (storage : List MessageRecord)
    (n e m : JVal) (nowMs nowIso : String) (db : DbInsertOutcome) (emailOk : Bool)
    (hn : n.truthy = true) (he : e.truthy = true) (hm : m.truthy = true) :
    (postMessages env storage ⟨some n, some e, some m⟩ nowMs nowIso db emailOk).response.status
      = 201 ∧
    Option.map MessageRecord.name
      (postMessages env storage ⟨some n, some e, some m⟩ nowMs nowIso db emailOk).response.data
      = some n ∧
    Option.map MessageRecord.email
      (postMessages env storage ⟨some n, some e, some m⟩ nowMs nowIso db emailOk).response.data
      = some e ∧
    Option.map MessageRecord.message
      (postMessages env storage ⟨some n, some e, some m⟩ nowMs nowIso db emailOk).response.data
      = some m := by
  cases hc : envConfigured env <;> rcases db <;>
    simp [postMessages, truthyOpt, hn, he, hm, hc]

/-- Witness for `post_valid_echoes_input`: a configured environment with
a successful insert. -/
theorem post_valid_echoes_input_witness :
    (postMessages ⟨some "u", some "k"⟩ [] ⟨some (.jstr "Alice"), some (.jstr "a@b.c"),
        some (.jstr "hi")⟩ "100" "t0" (.insSaved "7" "t1") false).response.status = 201 ∧
    Option.map MessageRecord.name
      (postMessages ⟨some "u", some "k"⟩ [] ⟨some (.jstr "Alice"), some (.jstr "a@b.c"),
        some (.jstr "hi")⟩ "100" "t0" (.insSaved "7" "t1") false).response.data
      = some (.jstr "Alice") ∧
    Option.map MessageRecord.email
      (postMessages ⟨some "u", some "k"⟩ [] ⟨some (.jstr "Alice"), some (.jstr "a@b.c"),
        some (.jstr "hi")⟩ "100" "t0" (.insSaved "7" "t1") false).response.data
      = some (.jstr "a@b.c") ∧
    Option.map MessageRecord.message
      (postMessages ⟨some "u", some "k"⟩ [] ⟨some (.jstr "Alice"), some (.jstr "a@b.c"),
        some (.jstr "hi")⟩ "100" "t0" (.insSaved "7" "t1") false).response.data
      = some (.jstr "hi") :=
  post_valid_echoes_input ⟨some "u", some "k"⟩ [] (.jstr "Alice") (.jstr "a@b.c")
    (.jstr "hi") "100" "t0" (.insSaved "7" "t1") false rfl rfl rfl

/-- With the database pair unset, one valid post appends exactly its
record to the store. -/
lemma postMessages_unconfigured_appends (env : Env) (s : List MessageRecord)
    (p : ValidPostInput) (db : DbInsertOutcome) (emailOk : Bool)
    (henv : envConfigured env = false) (hv : validInput p = true) :
    (postMessages env s ⟨some p.name, some p.email, some p.message⟩
        p.nowMs p.nowIso db emailOk).storage = s ++ [recordOfInput p] := by
  have hn : p.name.truthy = true := by
    simpa using (Bool.and_elim_left (Bool.and_elim_left hv))
  have he : p.email.truthy = true := by
    simpa using (Bool.and_elim_right (Bool.and_elim_left hv))
  have hm : p.message.truthy = true := by
    simpa using (Bool.and_elim_right hv)
  simp [postMessages, truthyOpt, hn, he, hm, henv, recordOfInput]

/-- With the database pair unset, a sequence of valid posts appends the
corresponding records in order, whatever store it starts from. -/
lemma runPosts_unconfigured (env : Env) (db : DbInsertOutcome) (emailOk : Bool)
    (posts : List ValidPostInput) (henv : envConfigured env = false)
    (hall : posts.all validInput = true) :
    ∀ s, runPosts env db emailOk s posts = s ++ posts.map recordOfInput := by
  induction posts with
  | nil => intro s; simp [runPosts]
  | cons p rest ih =>
    intro s
    have hcons := hall
    simp only [List.all_cons, Bool.and_eq_true] at hcons
    obtain ⟨hp, hrest⟩ := hcons
    rw [runPosts, postMessages_unconfigured_appends env s p db emailOk henv hp,
      ih hrest (s ++ [recordOfInput p])]
    simp

/-- Claim C4: with both database settings unset, any number of valid
posts followed by a get returns exactly the two seeded fixtures followed
by the new records, in the order the posts were appended. -/
theorem fallback_get_after_posts (env : Env) (db : DbInsertOutcome) (emailOk : Bool)
    (dbSel : DbSelectOutcome) (t1 t2 : String) (posts : List ValidPostInput)
    (henv : envConfigured env = false) (hall : posts.all validInput = true) :
    (getMessages env (runPosts env db emailOk (seededStorage t1 t2) posts) dbSel).messages
      = seededStorage t1 t2 ++ posts.map recordOfInput := by
  rw [runPosts_unconfigured env db emailOk posts henv hall (seededStorage t1 t2)]
  simp [getMessages, henv]

/-- Witness for `fallback_get_after_posts`: one valid post against the
unset environment. -/
theorem fallback_get_after_posts_witness :
    (getMessages ⟨none, none⟩
        (runPosts ⟨none, none⟩ .insErrorOrNull true (seededStorage "t1" "t2")
          [⟨.jstr "Alice", .jstr "a@b.c", .jstr "hi", "100", "t3"⟩])
        .selRaised).messages
      = seededStorage "t1" "t2"
        ++ [recordOfInput ⟨.jstr "Alice", .jstr "a@b.c", .jstr "hi", "100", "t3"⟩] :=
  fallback_get_after_posts ⟨none, none⟩ .insErrorOrNull true .selRaised "t1" "t2"
    [⟨.jstr "Alice", .jstr "a@b.c", .jstr "hi", "100", "t3"⟩] rfl (by decide)

/-- The POST handler only ever extends the store on the right. -/
lemma postMessages_storage_extends (env : Env) (s : List MessageRecord)
    (body : PostRequestBody) (nowMs nowIso : String) (db : DbInsertOutcome)
    (emailOk : Bool) :
    ∃ suffix, (postMessages env s body nowMs nowIso db emailOk).storage = s ++ suffix := by
  by_cases hv :
      (!(truthyOpt body.name) || !(truthyOpt body.email) || !(truthyOpt body.message)) = true
  · exact ⟨[], by simp [postMessages, hv]⟩
  · have hv2 :
        (!(truthyOpt body.name) || !(truthyOpt body.email) || !(truthyOpt body.message))
          = false := Bool.eq_false_iff.mpr hv
    cases hc : envConfigured env <;> rcases db
    case neg.true.insSaved =>
      refine ⟨[], ?_⟩
      simp [postMessages, hv2, hc]
    all_goals
      refine ⟨[{ id := nowMs, name := body.name.getD .jnull,
                 email := body.email.getD .jnull,
                 message := body.message.getD .jnull,
                 status := "new", created_at := nowIso }], ?_⟩
    all_goals simp [postMessages, hv2, hc]

/-- Claim C5: no operation of the codebase ever removes or mutates a
record of the in-memory message store: the store after any operation is
the store before it with a (possibly empty) suffix appended, so every
previously stored record survives unchanged at its position. -/
theorem storage_append_only (op : ServerOp) (s : List MessageRecord) :
    ∃ suffix, storageAfter op s = s ++ suffix := by
  cases op with
  | postMsgs env body nowMs nowIso db emailOk =>
    simpa [storageAfter] using
      postMessages_storage_extends env s body nowMs nowIso db emailOk
  | _ => exact ⟨[], by simp [storageAfter]⟩

/-- Claim C6: with the provider credential absent (or empty), sendEmail
returns the not-configured failure, makes no provider network call and
submits no email log row. -/
theorem sendEmail_unconfigured_no_effects (resendApiKey : Option String)
    (toAddr subject html : String) (provider : ProviderOutcome) (nowIso : String)
    (h : truthyEnv resendApiKey = false) :
    (sendEmail resendApiKey toAddr subject html provider nowIso).result
      = ⟨false, some "Email service not configured", none⟩ ∧
    (sendEmail resendApiKey toAddr subject html provider nowIso).networkCalls = 0 ∧
    (sendEmail resendApiKey toAddr subject html provider nowIso).logAttempts = [] := by
  simp [sendEmail, h]

/-- Witness for `sendEmail_unconfigured_no_effects` with the key unset. -/
theorem sendEmail_unconfigured_no_effects_witness :
    (sendEmail none "admin@x.y" "subj" "<p>hi</p>" (.sent "id1") "t0").result
      = ⟨false, some "Email service not configured", none⟩ ∧
    (sendEmail none "admin@x.y" "subj" "<p>hi</p>" (.sent "id1") "t0").networkCalls = 0 ∧
    (sendEmail none "admin@x.y" "subj" "<p>hi</p>" (.sent "id1") "t0").logAttempts = [] :=
  sendEmail_unconfigured_no_effects none "admin@x.y" "subj" "<p>hi</p>" (.sent "id1")
    "t0" rfl

/-- Claim C7: the admin fixture logs in with role admin and the constant
placeholder token; any other password for that address yields 401
AUTH_ERROR; and in general a login succeeds exactly for the three
email/password pairs of the hard-coded table. -/
theorem login_table_exact_match :
    ((login "romanetflavia@gmail.com" "admin123").status = 200 ∧
     (login "romanetflavia@gmail.com" "admin123").success = true ∧
     (login "romanetflavia@gmail.com" "admin123").userRole = some "admin" ∧
     (login "romanetflavia@gmail.com" "admin123").token = some "mock-jwt-token") ∧
    (∀ p : String, p ≠ "admin123" →
      (login "romanetflavia@gmail.com" p).status = 401 ∧
      (login "romanetflavia@gmail.com" p).code = some "AUTH_ERROR") ∧
    (∀ e p : String, (login e p).success = true ↔
      ((e = "romanetflavia@gmail.com" ∧ p = "admin123") ∨
       (e = "alex@salesresolve.com" ∧ p = "team123") ∨
       (e = "adrian@salesresolve.com" ∧ p = "team123"))) := by
  refine ⟨⟨rfl, rfl, rfl, rfl⟩, ?_, ?_⟩
  · intro p hp
    have hne : ¬("admin123" = p) := fun h => hp h.symm
    constructor <;> simp [login, loginUsers, hne]
  · intro e p
    by_cases h1 : e = "romanetflavia@gmail.com"
    · subst h1
      by_cases h2 : p = "admin123"
      · subst h2; simp [login, loginUsers]
      · have hne : ¬("admin123" = p) := fun h => h2 h.symm
        simp [login, loginUsers, hne, h2]
    · by_cases h2 : e = "alex@salesresolve.com"
      · subst h2
        by_cases h3 : p = "team123"
        · subst h3; simp [login, loginUsers]
        · have hne : ¬("team123" = p) := fun h => h3 h.symm
          simp [login, loginUsers, hne, h3]
      · by_cases h3 : e = "adrian@salesresolve.com"
        · subst h3
          by_cases h4 : p = "team123"
          · subst h4; simp [login, loginUsers]
          · have hne : ¬("team123" = p) := fun h => h4 h.symm
            simp [login, loginUsers, hne, h4]
        · simp [login, loginUsers, h1, h2, h3]

/-- Witness for `login_table_exact_match`: the wrong-password branch at a
concrete password. -/
theorem login_table_exact_match_witness :
    (login "romanetflavia@gmail.com" "admin124").status = 401 ∧
    (login "romanetflavia@gmail.com" "admin124").code = some "AUTH_ERROR" :=
  login_table_exact_match.2.1 "admin124" (by decide)

/-- Claim C8: a join-room event with role client is joined to the room
client- followed by its own userId — the joined room does not depend on
the caller-supplied roomId at all — while any other role is joined to the
caller-supplied roomId unconditionally. -/
theorem joinRoom_role_routing :
    (∀ roomId userId : String, joinRoom roomId userId "client" = "client-" ++ userId) ∧
    (∀ roomId1 roomId2 userId : String,
      joinRoom roomId1 userId "client" = joinRoom roomId2 userId "client") ∧
    (∀ roomId userId role : String, role ≠ "client" →
      joinRoom roomId userId role = roomId) := by
  refine ⟨fun roomId userId => rfl, fun roomId1 roomId2 userId => rfl, ?_⟩
  intro roomId userId role h
  simp [joinRoom, h]

/-- Witness for `joinRoom_role_routing`: an admin join at a concrete
room. -/
theorem joinRoom_role_routing_witness :
    joinRoom "client-99" "42" "client" = "client-42" ∧
    joinRoom "team-room" "42" "admin" = "team-room" :=
  ⟨joinRoom_role_routing.1 "client-99" "42",
   joinRoom_role_routing.2.2 "team-room" "42" "admin" (by decide)⟩

/-- A concrete socket message object for the broadcast witness: a text
field plus a client-supplied timestamp. -/
def sampleSocketMessage : String → Option JVal :=
  fun k =>
    if k = "text" then some (.jstr "hello")
    else if k = "timestamp" then some (.jstr "client-time")
    else none

/-- Claim C10: the message-received payload broadcast for a new-message
event is the client message with every field unchanged except timestamp,
which is set to the server time, overwriting any client-supplied value. -/
theorem broadcast_overwrites_timestamp (message : String → Option JVal)
    (nowIso : String) :
    broadcastPayload message nowIso "timestamp" = some (.jstr nowIso) ∧
    ∀ k : String, k ≠ "timestamp" → broadcastPayload message nowIso k = message k := by
  refine ⟨rfl, ?_⟩
  intro k hk
  simp [broadcastPayload, hk]

/-- Witness for `broadcast_overwrites_timestamp`: the sample message has
its client timestamp overwritten and its text field preserved. -/
theorem broadcast_overwrites_timestamp_witness :
    broadcastPayload sampleSocketMessage "server-time" "timestamp"
      = some (.jstr "server-time") ∧
    broadcastPayload sampleSocketMessage "server-time" "text" = some (.jstr "hello") := by
  refine ⟨(broadcast_overwrites_timestamp sampleSocketMessage "server-time").1, ?_⟩
  rw [(broadcast_overwrites_timestamp sampleSocketMessage "server-time").2 "text"
    (by decide)]
  rfl

end SalesResolve
